import Mathlib

/-!
Verification of the session broker in `src/server.py` (mcp-ipython).

The Python source is shallowly embedded: string primitives used by the code
(`str.strip`, `str.lower`, `str.capitalize`, `str.startswith`, the `in`
substring test) are modelled at the `List Char` level; the IOPub polling
loop of `send_command` is driven by the trace of successive poll outcomes,
each paired with the elapsed time observed at the top of its iteration; the
shell-reply phase and the early kernel-restart paths are modelled by explicit
case analysis on an environment record.
-/

/-- Python `str.strip()`: drop leading and trailing whitespace. -/
def pyStrip (s : String) : String :=
  String.mk (((s.data.dropWhile Char.isWhitespace).reverse.dropWhile Char.isWhitespace).reverse)

/-- Python `str.lower()`. -/
def pyLower (s : String) : String := String.mk (s.data.map Char.toLower)

/-- Python `str.capitalize()`: first character uppercased, the rest lowercased. -/
def pyCapitalize (s : String) : String :=
  match s.data with
  | [] => ""
  | c :: cs => String.mk (c.toUpper :: cs.map Char.toLower)

/-- Python `s.startswith(p)`. -/
def pyStartsWith (s p : String) : Prop := p.data <+: s.data

instance (s p : String) : Decidable (pyStartsWith s p) :=
  inferInstanceAs (Decidable (p.data <+: s.data))

/-- Python `needle in hay` on strings: substring containment. -/
def pyIn (needle hay : String) : Prop := needle.data <:+: hay.data

instance (needle hay : String) : Decidable (pyIn needle hay) :=
  inferInstanceAs (Decidable (needle.data <:+: hay.data))

/-- Python `"\n".join(lines)`. -/
def joinWithNewline : List String → String
  | [] => ""
  | [s] => s
  | s :: rest => s ++ "\n" ++ joinWithNewline rest

/-- `"\n".join(filter(None, outputs))` (src/server.py line 223): empty strings
are falsy, so `filter(None, ·)` drops exactly the empty lines. -/
def joinOutputs (outputs : List String) : String :=
  joinWithNewline (outputs.filter (fun s => s ≠ ""))

/-- The first line of the returned text. -/
def firstLine (s : String) : String :=
  String.mk (s.data.takeWhile (fun c => c ≠ '\n'))

/-- `HistoryManager.save_command` (src/server.py lines 23-30) as a function
from the current history-file contents and the command to the new contents:
the command is appended (followed by a newline) unless it starts with
`get_ipython` or `%` or is blank after stripping. -/
def save_command (history_file : String) (command : String) : String :=
  if ¬ (pyStartsWith command "get_ipython" ∨ pyStartsWith command "%") ∧ pyStrip command ≠ "" then
    history_file ++ command ++ "\n"
  else
    history_file

/-- `clear_kernel` (src/server.py lines 225-237) as a function of the
transcript `reset_command_output` returned by `send_command("%reset -f")`. -/
def clear_kernel (reset_command_output : String) : String :=
  if pyIn "Status: ok" reset_command_output ∧ ¬ pyIn "error" (pyLower reset_command_output) then
    "IPython kernel environment cleared successfully.\nDetails:\n" ++ reset_command_output
  else
    "IPython kernel clear command finished with potential issues.\nDetails:\n" ++ reset_command_output

example : save_command "h\n" "x = 1" = "h\nx = 1\n" := by decide
example : save_command "h\n" "%reset -f" = "h\n" := by decide
example : save_command "h\n" "   " = "h\n" := by decide
example : save_command "h\n" "get_ipython().run_line_magic()" = "h\n" := by decide
example : clear_kernel "Status: ok\n  Kernel Status: idle" =
    "IPython kernel environment cleared successfully.\nDetails:\nStatus: ok\n  Kernel Status: idle" := by decide
example : clear_kernel "Status: ok\n  Stdout: no Errors" =
    "IPython kernel clear command finished with potential issues.\nDetails:\nStatus: ok\n  Stdout: no Errors" := by decide

/-- The content of one IOPub message as read by `send_command`
(src/server.py lines 148-176).  `execute_result` and `display_data` carry the
`data` mime bundle as an association list; the IOPub `error` carries
`ename` / `evalue` (absent keys modelled as `none`, read with default
`N/A`) and a traceback.  Any message type outside the handled chain (for
example `execute_input`) is `otherMsgType`. -/
inductive IOPubContent
  | status (execution_state : String)
  | stream (name text : String)
  | execute_result (data : List (String × String))
  | display_data (data : List (String × String))
  | error (ename evalue : Option String) (traceback : List String)
  | otherMsgType (msg_type : String)
deriving DecidableEq

/-- Python `repr` of a list of strings, as produced by
`list(data.keys())` inside an f-string (src/server.py line 168). -/
def pyListRepr (keys : List String) : String :=
  "[" ++ joinCommaSep (keys.map (fun k => "\x27" ++ k ++ "\x27")) ++ "]"
where
  joinCommaSep : List String → String
    | [] => ""
    | [s] => s
    | s :: rest => s ++ ", " ++ joinCommaSep rest

/-- Lines appended to `outputs` for one IOPub message whose parent id matches,
and the updated `kernel_reported_idle_for_request` flag
(src/server.py lines 153-176). -/
def interpretIOPub (content : IOPubContent) (idleSeen : Bool) : List String × Bool :=
  match content with
  | .status exec_state =>
      (["  Kernel Status: " ++ exec_state],
       if exec_state = "idle" then true else idleSeen)
  | .stream name text =>
      (["  " ++ pyCapitalize name ++ ": " ++ pyStrip text], idleSeen)
  | .execute_result data =>
      let text_plain := (data.lookup "text/plain").getD ""
      (if text_plain ≠ "" then
        ["  Result: " ++ pyStrip text_plain]
      else
        ["  Execute_Result (no text/plain, available data keys: " ++
          (if data = [] then "data field missing or empty"
           else pyListRepr (data.map (fun kv => kv.1))) ++ ")"], idleSeen)
  | .display_data data =>
      (["  Display Data: " ++ pyStrip ((data.lookup "text/plain").getD "No plain text data")],
       idleSeen)
  | .error ename evalue traceback =>
      (("  IOPub Error: " ++ ename.getD "N/A" ++ " - " ++ evalue.getD "N/A") ::
        (if traceback ≠ [] then
          "  IOPub Traceback:" :: traceback.map (fun line => "    " ++ line)
         else []), idleSeen)
  | .otherMsgType _ => ([], idleSeen)

/-- The outcome of one `kc.get_iopub_msg(timeout=0.5)` attempt: a message with
its parent correlation id, the `queue.Empty` timeout, or some other
exception. -/
inductive PollResult
  | msg (parent_msg_id : String) (content : IOPubContent)
  | empty
  | exc (e : String)
deriving DecidableEq

/-- How the IOPub loop of src/server.py lines 138-192 exited. -/
inductive LoopExit
  | overallTimeout
  | idleQuiet
  | exception
deriving DecidableEq

/-- `iopub_timeout_duration = 10.0` (src/server.py line 131). -/
def iopub_timeout_duration : ℚ := 10

/-- Line appended when the overall IOPub timeout fires (src/server.py line 140). -/
def overallTimeoutLine : String :=
  "  (Overall timeout waiting for all IOPub messages or kernel to go idle for this request)"

/-- The IOPub polling loop (src/server.py lines 138-192).  The loop is driven
by the trace of successive poll outcomes; each outcome is paired with the
elapsed time `time.monotonic() - iopub_start_time` observed at the top of its
iteration.  Returns the lines appended to `outputs`, the final
`kernel_reported_idle_for_request` flag, and how the loop exited (`none`
when the supplied trace was exhausted with the loop still running). -/
def iopubLoop (msg_id : String) :
    List (ℚ × PollResult) → Bool → List String × Bool × Option LoopExit
  | [], idleSeen => ([], idleSeen, none)
  | (t, r) :: rest, idleSeen =>
    if t > iopub_timeout_duration then
      ([overallTimeoutLine], idleSeen, some .overallTimeout)
    else
      match r with
      | .msg parent_id content =>
        if parent_id = msg_id then
          ((interpretIOPub content idleSeen).1 ++
             (iopubLoop msg_id rest (interpretIOPub content idleSeen).2).1,
           (iopubLoop msg_id rest (interpretIOPub content idleSeen).2).2)
        else
          iopubLoop msg_id rest idleSeen
      | .empty =>
        if idleSeen then ([], idleSeen, some .idleQuiet)
        else iopubLoop msg_id rest idleSeen
      | .exc e =>
        (["Exception while processing IOPub message: " ++ e], idleSeen, some .exception)

/-- The content of a shell reply (src/server.py lines 198-211): absent
`ename`/`evalue` keys are `none` (read with default `N/A`), likewise an
absent `execution_count`. -/
structure ShellReplyContent where
  status : String
  ename : Option String := none
  evalue : Option String := none
  traceback : List String := []
  execution_count : Option Int := none
deriving DecidableEq

/-- Outcome of `kc.get_shell_msg(timeout=10)` (src/server.py line 197). -/
inductive ShellResult
  | reply (parent_msg_id : String) (content : ShellReplyContent)
  | empty
  | exc (e : String)
deriving DecidableEq

/-- The error-detail lines appended when a matching shell reply has
status `error` (src/server.py lines 203-209). -/
def shellErrorDetails (content : ShellReplyContent) : List String :=
  ["  Shell Error Name: " ++ content.ename.getD "N/A",
   "  Shell Error Value: " ++ content.evalue.getD "N/A"] ++
  (if content.traceback ≠ [] then
    "  Shell Traceback:" :: content.traceback.map (fun line => "    " ++ line)
   else [])

/-- The execution-count line appended when a matching shell reply has
status `ok` (src/server.py line 211). -/
def executionCountLine (content : ShellReplyContent) : String :=
  "  Execution Count: " ++
    (match content.execution_count with
     | some n => toString n
     | none => "N/A")

/-- Shell reply processing (src/server.py lines 194-221): prepends the overall
status line to the IOPub-derived `outputs` and appends reply-derived detail
lines. -/
def shellPhase (msg_id : String) (res : ShellResult) (outputs : List String) : List String :=
  match res with
  | .reply parent_id content =>
    if parent_id = msg_id then
      if content.status = "error" then
        ("Status: " ++ content.status) :: outputs ++ shellErrorDetails content
      else if content.status = "ok" then
        ("Status: " ++ content.status) :: outputs ++ [executionCountLine content]
      else
        ("Status: " ++ content.status) :: outputs
    else
      "Status: error_shell_reply_mismatch" :: outputs ++
        ["Shell reply (msg_id " ++ parent_id ++ ") was not for the current command (msg_id " ++
          msg_id ++ ")."]
  | .empty =>
    "Status: error_shell_reply_timeout" :: outputs ++
      ["Timeout waiting for shell reply from IPython kernel."]
  | .exc e =>
    "Status: error_shell_reply_exception" :: outputs ++
      ["Exception while getting shell reply: " ++ e]

/-- The environment one `send_command` call observes (src/server.py
lines 91-223): whether `kc`, `km` are set with `km.is_alive()`
(`kernel_alive`), whether `start_ipython_kernel()` succeeds when attempted
(`restart_ok`, with the exception text `restart_error` otherwise), whether
`kc.channels_running` held and whether `wait_for_ready` succeeds after a
channel restart (`ready_ok`), the correlation id returned by
`kc.execute(command)`, the trace of IOPub poll outcomes, and the shell-reply
outcome. -/
structure KernelEnv where
  kernel_alive : Bool
  restart_ok : Bool := true
  restart_error : String := ""
  channels_running : Bool := true
  ready_ok : Bool := true
  msg_id : String := ""
  iopubTrace : List (ℚ × PollResult) := []
  shellResult : ShellResult := .empty
deriving DecidableEq

/-- `send_command` (src/server.py lines 91-223) as a function of its
environment.  The `command` string itself only reaches the kernel and the
history sink; the returned text depends on the environment. -/
def send_command (env : KernelEnv) : String :=
  if ¬ env.kernel_alive then
    if env.restart_ok then
      "Error: IPython kernel was not running. It has been restarted. Please try your command again."
    else
      "Error: IPython kernel not available and failed to restart: " ++ env.restart_error
  else if ¬ env.channels_running ∧ ¬ env.ready_ok then
    "Error: Failed to ensure kernel client readiness."
  else
    joinOutputs (shellPhase env.msg_id env.shellResult
      (iopubLoop env.msg_id env.iopubTrace false).1)

def exampleEnv : KernelEnv :=
  { kernel_alive := true
    msg_id := "m1"
    iopubTrace := [((1 : ℚ), .msg "m1" (.stream "stdout" "hi\n")),
                   ((2 : ℚ), .msg "m1" (.status "idle")),
                   ((3 : ℚ), .empty)]
    shellResult := .reply "m1" { status := "ok", execution_count := some 1 } }

example :
    send_command exampleEnv =
    "Status: ok\n  Stdout: hi\n  Kernel Status: idle\n  Execution Count: 1" := by decide

/-- The await-boundary events of one `send_command` call that touch the shared
kernel: the submission `kc.execute(command)` (src/server.py line 127) and the
final reply retrieval `kc.get_shell_msg` (src/server.py line 197).
`send_command` acquires no lock between them, so under the asyncio scheduler a
second concurrent call may interleave at any await point. -/
inductive TaskStep
  | submit
  | finish
deriving DecidableEq

/-- The kernel-touching step sequence of one `send_command` call:
submit, then (after the polling loop) retrieve the reply. -/
def send_command_steps : List TaskStep := [TaskStep.submit, TaskStep.finish]

/-- Interleave two concurrent calls: `sched` picks at each scheduling point
which call advances (`true` = first call).  A choice of an already-finished
call advances the other; scheduling may stop early. -/
def schedRun (sched : List Bool) (p1 p2 : List TaskStep) : List TaskStep :=
  match sched, p1, p2 with
  | [], _, _ => []
  | b :: bs, s1, s2 =>
    if b then
      match s1 with
      | [] =>
        match s2 with
        | [] => []
        | s :: rest => s :: schedRun bs [] rest
      | s :: rest => s :: schedRun bs rest s2
    else
      match s2 with
      | [] =>
        match s1 with
        | [] => []
        | s :: rest => s :: schedRun bs rest []
      | s :: rest => s :: schedRun bs s1 rest

/-- Running counts of in-flight submissions along a step sequence:
`submit` increments, `finish` decrements. -/
def inFlightCounts (n : Nat) : List TaskStep → List Nat
  | [] => []
  | .submit :: rest => (n + 1) :: inFlightCounts (n + 1) rest
  | .finish :: rest => (n - 1) :: inFlightCounts (n - 1) rest

example : inFlightCounts 0 (schedRun [true, false, true, false]
    send_command_steps send_command_steps) = [1, 2, 1, 0] := by decide

lemma takeWhile_eq_self_of_pos (p : Char → Bool) (l : List Char)
    (hl : ∀ c ∈ l, p c = true) : l.takeWhile p = l := by
  induction l with
  | nil => rfl
  | cons c cs ih =>
    simp only [List.takeWhile_cons, hl c (by simp), if_true]
    exact congrArg (c :: ·) (ih fun x hx => hl x (by simp [hx]))

lemma takeWhile_append_of_pos (p : Char → Bool) (l r : List Char)
    (hl : ∀ c ∈ l, p c = true) : (l ++ r).takeWhile p = l ++ r.takeWhile p := by
  induction l with
  | nil => rfl
  | cons c cs ih =>
    simp only [List.cons_append, List.takeWhile_cons, hl c (by simp), if_true]
    exact congrArg (c :: ·) (ih fun x hx => hl x (by simp [hx]))

lemma firstLine_of_no_newline (s : String) (h : ∀ c ∈ s.data, c ≠ '\n') :
    firstLine s = s := by
  show String.mk (s.data.takeWhile fun c => c ≠ '\n') = s
  rw [takeWhile_eq_self_of_pos _ _ fun c hc => decide_eq_true (h c hc)]

lemma firstLine_append (s r : String) (h : ∀ c ∈ s.data, c ≠ '\n') :
    firstLine (s ++ r) = s ++ firstLine r := by
  show String.mk ((s ++ r).data.takeWhile fun c => c ≠ '\n') = s ++ firstLine r
  rw [String.data_append,
    takeWhile_append_of_pos _ _ _ fun c hc => decide_eq_true (h c hc)]
  show String.mk (s.data ++ (firstLine r).data) = _
  apply String.ext
  rw [String.data_append]

lemma firstLine_joinOutputs_cons (s : String) (rest : List String)
    (h : ∀ c ∈ s.data, c ≠ '\n') (hne : s.data ≠ []) :
    firstLine (joinOutputs (s :: rest)) = s := by
  have hsne : s ≠ "" := fun he => hne (by rw [he])
  unfold joinOutputs
  rw [List.filter_cons_of_pos (by simpa using hsne)]
  rcases hf : rest.filter (fun x => x ≠ "") with _ | ⟨f, fs⟩
  · rw [joinWithNewline]
    exact firstLine_of_no_newline s h
  · show firstLine (s ++ "\n" ++ joinWithNewline (f :: fs)) = s
    rw [String.append_assoc, firstLine_append s _ h]
    have : firstLine ("\n" ++ joinWithNewline (f :: fs)) = "" := by
      show String.mk (("\n" ++ joinWithNewline (f :: fs)).data.takeWhile fun c => c ≠ '\n') = ""
      rw [String.data_append]
      show String.mk (('\n' :: (joinWithNewline (f :: fs)).data).takeWhile fun c => c ≠ '\n') = ""
      rw [List.takeWhile_cons_of_neg (by simp)]
    rw [this]
    apply String.ext
    rw [String.data_append]
    show s.data ++ [] = s.data
    exact List.append_nil _

/-- C3, counterexample: the claimed mutual exclusion fails on the code.
`send_command` acquires no lock between `kc.execute` (src/server.py line 127)
and `kc.get_shell_msg` (line 197), so the interleaving that schedules the
second call's submission right after the first one's reaches two in-flight
submissions against the shared worker. -/
theorem send_command_serialization_cex :
    ¬ (∀ n ∈ inFlightCounts 0
        (schedRun [true, false] send_command_steps send_command_steps), n ≤ 1) := by
  decide

/-- C3 (amended): the broker does not enforce mutual exclusion — there is an
interleaving of two concurrent `send_command` calls under which two
submissions are simultaneously in flight against the shared worker. -/
theorem send_command_no_mutual_exclusion :
    ∃ sched, ∃ n ∈ inFlightCounts 0
      (schedRun sched send_command_steps send_command_steps), 2 ≤ n :=
  ⟨[true, false], 2, by decide⟩

/-- C8: `save_command` appends the raw command text verbatim (followed by a
newline) to the history file if and only if the command is not blank after
stripping and does not start with `get_ipython` or `%`; otherwise the file
contents are unchanged. -/
theorem save_command_spec (history_file command : String) :
    (save_command history_file command = history_file ++ command ++ "\n" ↔
      (¬ (pyStartsWith command "get_ipython" ∨ pyStartsWith command "%") ∧
        pyStrip command ≠ "")) ∧
    ((pyStartsWith command "get_ipython" ∨ pyStartsWith command "%") ∨ pyStrip command = "" →
      save_command history_file command = history_file) := by
  by_cases h : ¬ (pyStartsWith command "get_ipython" ∨ pyStartsWith command "%") ∧
      pyStrip command ≠ ""
  · refine ⟨⟨fun _ => h, fun _ => by rw [save_command, if_pos h]⟩, fun hc => ?_⟩
    rcases h with ⟨h1, h2⟩
    rcases hc with hc | hc
    · exact absurd hc h1
    · exact absurd hc h2
  · constructor
    · rw [save_command, if_neg h]
      constructor
      · intro heq
        have hlen := congrArg String.length heq
        rw [String.length_append, String.length_append] at hlen
        have h1 : (1 : Nat) ≤ ("\n" : String).length := by decide
        omega
      · intro hcond
        exact absurd hcond h
    · intro _
      rw [save_command, if_neg h]

/-- C8, witness: a `%`-prefixed command leaves the history file unchanged. -/
theorem save_command_spec_witness :
    save_command "# Automatic IPython Command History\n" "%reset -f" =
      "# Automatic IPython Command History\n" :=
  (save_command_spec "# Automatic IPython Command History\n" "%reset -f").2
    (Or.inl (Or.inr (by decide)))

/-- C10: `clear_kernel` always returns the summary line followed by the full
underlying transcript; it reports the success summary exactly when the
transcript contains `Status: ok` and its lowercasing does not contain
`error`; hence a transcript that contains `Status: ok` but mentions `error`
anywhere (in any letter case) is reported as having potential issues. -/
theorem clear_kernel_spec (t : String) :
    (∃ s, clear_kernel t = s ++ "\nDetails:\n" ++ t) ∧
    (clear_kernel t = "IPython kernel environment cleared successfully.\nDetails:\n" ++ t ↔
      (pyIn "Status: ok" t ∧ ¬ pyIn "error" (pyLower t))) ∧
    (pyIn "Status: ok" t → pyIn "error" (pyLower t) →
      clear_kernel t =
        "IPython kernel clear command finished with potential issues.\nDetails:\n" ++ t) := by
  have hsplit1 : ("IPython kernel environment cleared successfully.\nDetails:\n" : String) =
      "IPython kernel environment cleared successfully." ++ "\nDetails:\n" := by decide
  have hsplit2 : ("IPython kernel clear command finished with potential issues.\nDetails:\n" :
      String) = "IPython kernel clear command finished with potential issues." ++
      "\nDetails:\n" := by decide
  by_cases hcond : pyIn "Status: ok" t ∧ ¬ pyIn "error" (pyLower t)
  · refine ⟨⟨"IPython kernel environment cleared successfully.", ?_⟩,
      ⟨fun _ => hcond, fun _ => by rw [clear_kernel, if_pos hcond]⟩,
      fun _ hbad => absurd hbad hcond.2⟩
    rw [clear_kernel, if_pos hcond, hsplit1]
  · have hneg : clear_kernel t =
        "IPython kernel clear command finished with potential issues.\nDetails:\n" ++ t := by
      rw [clear_kernel, if_neg hcond]
    refine ⟨⟨"IPython kernel clear command finished with potential issues.", ?_⟩,
      ⟨fun heq => ?_, fun hc => absurd hc hcond⟩, fun _ _ => hneg⟩
    · rw [hneg, hsplit2]
    · rw [hneg] at heq
      have hlen := congrArg String.length heq
      rw [String.length_append, String.length_append] at hlen
      have h12 :
          ("IPython kernel clear command finished with potential issues.\nDetails:\n" :
            String).length ≠
          ("IPython kernel environment cleared successfully.\nDetails:\n" : String).length := by
        decide
      omega

/-- C10, witness: a transcript containing `Status: ok` but also the word
`Errors` is reported as having potential issues. -/
theorem clear_kernel_spec_witness :
    clear_kernel "Status: ok\n  Stdout: no Errors here" =
      "IPython kernel clear command finished with potential issues.\nDetails:\n" ++
        "Status: ok\n  Stdout: no Errors here" :=
  (clear_kernel_spec "Status: ok\n  Stdout: no Errors here").2.2 (by decide) (by decide)

/-- C2: correlation-id filtering.  A polled IOPub message whose parent
correlation id differs from the request's `msg_id` contributes nothing: the
loop proceeds exactly as if the poll had not happened; and every
notification-derived line of the transcript is the timeout marker, an
exception line from a polled exception, or the interpretation of a message
whose parent correlation id equals `msg_id`. -/
theorem iopub_correlation_filter :
    (∀ (msg_id parent_id : String) (content : IOPubContent) (t : ℚ)
        (rest : List (ℚ × PollResult)) (idleSeen : Bool),
      parent_id ≠ msg_id → t ≤ iopub_timeout_duration →
      iopubLoop msg_id ((t, PollResult.msg parent_id content) :: rest) idleSeen =
        iopubLoop msg_id rest idleSeen) ∧
    (∀ (msg_id : String) (trace : List (ℚ × PollResult)) (idleSeen : Bool)
        (line : String),
      line ∈ (iopubLoop msg_id trace idleSeen).1 →
      line = overallTimeoutLine ∨
      (∃ t e, (t, PollResult.exc e) ∈ trace ∧
        line = "Exception while processing IOPub message: " ++ e) ∨
      (∃ t content flag, (t, PollResult.msg msg_id content) ∈ trace ∧
        line ∈ (interpretIOPub content flag).1)) := by
  constructor
  · intro msg_id parent_id content t rest idleSeen hpid ht
    rw [iopubLoop, if_neg (not_lt.mpr ht)]
    simp [hpid]
  · intro msg_id trace
    induction trace with
    | nil => intro idleSeen line hline; simp [iopubLoop] at hline
    | cons p rest ih =>
      intro idleSeen line hline
      obtain ⟨t, r⟩ := p
      rcases r with ⟨parent_id, content⟩ | _ | e
      · rw [iopubLoop] at hline
        by_cases ht : t > iopub_timeout_duration
        · rw [if_pos ht] at hline
          simp at hline
          exact Or.inl hline
        · rw [if_neg ht] at hline
          by_cases hpid : parent_id = msg_id
          · subst hpid
            simp only [if_pos rfl] at hline
            rcases List.mem_append.mp hline with hl | hl
            · exact Or.inr (Or.inr ⟨t, content, idleSeen, by simp, hl⟩)
            · rcases ih _ line hl with h | ⟨t0, e0, hm, he⟩ | ⟨t0, c0, f0, hm, hi⟩
              · exact Or.inl h
              · exact Or.inr (Or.inl ⟨t0, e0, by simp [hm], he⟩)
              · exact Or.inr (Or.inr ⟨t0, c0, f0, by simp [hm], hi⟩)
          · simp only [if_neg hpid] at hline
            rcases ih _ line hline with h | ⟨t0, e0, hm, he⟩ | ⟨t0, c0, f0, hm, hi⟩
            · exact Or.inl h
            · exact Or.inr (Or.inl ⟨t0, e0, by simp [hm], he⟩)
            · exact Or.inr (Or.inr ⟨t0, c0, f0, by simp [hm], hi⟩)
      · rw [iopubLoop] at hline
        by_cases ht : t > iopub_timeout_duration
        · rw [if_pos ht] at hline
          simp at hline
          exact Or.inl hline
        · rw [if_neg ht] at hline
          by_cases hidle : idleSeen
          · subst hidle; simp at hline
          · simp only [Bool.not_eq_true] at hidle
            subst hidle
            rw [if_neg Bool.false_ne_true] at hline
            rcases ih _ line hline with h | ⟨t0, e0, hm, he⟩ | ⟨t0, c0, f0, hm, hi⟩
            · exact Or.inl h
            · exact Or.inr (Or.inl ⟨t0, e0, by simp [hm], he⟩)
            · exact Or.inr (Or.inr ⟨t0, c0, f0, by simp [hm], hi⟩)
      · rw [iopubLoop] at hline
        by_cases ht : t > iopub_timeout_duration
        · rw [if_pos ht] at hline
          simp at hline
          exact Or.inl hline
        · rw [if_neg ht] at hline
          simp at hline
          exact Or.inr (Or.inl ⟨t, e, by simp, hline⟩)

/-- C2, witness: the idle status line of a matching message is accounted for
by the interpretation of a matching message in the trace. -/
theorem iopub_correlation_filter_witness :
    "  Kernel Status: idle" = overallTimeoutLine ∨
    (∃ t e, (t, PollResult.exc e) ∈
        [((1 : ℚ), PollResult.msg "m1" (IOPubContent.status "idle"))] ∧
      "  Kernel Status: idle" = "Exception while processing IOPub message: " ++ e) ∨
    (∃ t content flag, (t, PollResult.msg "m1" content) ∈
        [((1 : ℚ), PollResult.msg "m1" (IOPubContent.status "idle"))] ∧
      "  Kernel Status: idle" ∈ (interpretIOPub content flag).1) :=
  iopub_correlation_filter.2 "m1"
    [((1 : ℚ), PollResult.msg "m1" (IOPubContent.status "idle"))] false
    "  Kernel Status: idle" (by decide)

/-- C4: the idle-then-quiet rule.  Under the overall deadline, an empty poll
terminates the loop exactly when the idle flag is already set: with
`idleSeen = true` the loop ends with exit `idleQuiet` consuming nothing
further, with `idleSeen = false` it just retries on the rest of the trace;
and a status message reporting `idle` merely records its line and sets the
flag — the loop continues with the rest of the trace, so the idle message by
itself never terminates the loop. -/
theorem iopub_idle_quiet_rule :
    (∀ (msg_id : String) (t : ℚ) (rest : List (ℚ × PollResult)),
      t ≤ iopub_timeout_duration →
      iopubLoop msg_id ((t, PollResult.empty) :: rest) true =
        ([], true, some LoopExit.idleQuiet)) ∧
    (∀ (msg_id : String) (t : ℚ) (rest : List (ℚ × PollResult)),
      t ≤ iopub_timeout_duration →
      iopubLoop msg_id ((t, PollResult.empty) :: rest) false =
        iopubLoop msg_id rest false) ∧
    (∀ (msg_id : String) (t : ℚ) (rest : List (ℚ × PollResult)) (idleSeen : Bool),
      t ≤ iopub_timeout_duration →
      iopubLoop msg_id ((t, PollResult.msg msg_id (IOPubContent.status "idle")) :: rest)
          idleSeen =
        ("  Kernel Status: idle" :: (iopubLoop msg_id rest true).1,
          (iopubLoop msg_id rest true).2)) := by
  refine ⟨fun msg_id t rest ht => ?_, fun msg_id t rest ht => ?_,
    fun msg_id t rest idleSeen ht => ?_⟩
  · rw [iopubLoop, if_neg (not_lt.mpr ht)]
    simp
  · rw [iopubLoop, if_neg (not_lt.mpr ht)]
    simp
  · rw [iopubLoop, if_neg (not_lt.mpr ht)]
    simp [interpretIOPub]

/-- C4, witness: at elapsed time 1, an empty poll with the idle flag set ends
the loop; with the flag clear it retries; and an idle status message alone
leaves the loop running (exhausting the trace gives exit `none`). -/
theorem iopub_idle_quiet_rule_witness :
    iopubLoop "m1" [((1 : ℚ), PollResult.empty)] true = ([], true, some LoopExit.idleQuiet) ∧
    iopubLoop "m1" [((1 : ℚ), PollResult.empty)] false = iopubLoop "m1" [] false ∧
    iopubLoop "m1" [((1 : ℚ), PollResult.msg "m1" (IOPubContent.status "idle"))] false =
      ("  Kernel Status: idle" :: (iopubLoop "m1" [] true).1, (iopubLoop "m1" [] true).2) :=
  ⟨iopub_idle_quiet_rule.1 "m1" 1 [] (by decide),
   iopub_idle_quiet_rule.2.1 "m1" 1 [] (by decide),
   iopub_idle_quiet_rule.2.2 "m1" 1 [] false (by decide)⟩

/-- C5: the overall timeout is a hard ceiling.  At the first iteration whose
elapsed time exceeds `iopub_timeout_duration` the loop exits immediately —
whatever the poll would have returned and whatever the idle flag — appending
exactly the timeout marker line and consuming nothing further; consequently
any trace reaching past the deadline makes the loop terminate (its exit is
never `none`). -/
theorem iopub_overall_timeout :
    (∀ (msg_id : String) (t : ℚ) (r : PollResult) (rest : List (ℚ × PollResult))
        (idleSeen : Bool),
      t > iopub_timeout_duration →
      iopubLoop msg_id ((t, r) :: rest) idleSeen =
        ([overallTimeoutLine], idleSeen, some LoopExit.overallTimeout)) ∧
    (∀ (msg_id : String) (trace : List (ℚ × PollResult)) (idleSeen : Bool),
      (∃ p ∈ trace, p.1 > iopub_timeout_duration) →
      (iopubLoop msg_id trace idleSeen).2.2 ≠ none) := by
  constructor
  · intro msg_id t r rest idleSeen ht
    rcases r with ⟨parent_id, content⟩ | _ | e <;> rw [iopubLoop, if_pos ht]
  · intro msg_id trace
    induction trace with
    | nil => intro idleSeen h; simp at h
    | cons p rest ih =>
      intro idleSeen hex
      obtain ⟨t, r⟩ := p
      have hrest : ¬ t > iopub_timeout_duration → ∃ p ∈ rest, p.1 > iopub_timeout_duration := by
        intro ht
        rcases hex with ⟨q, hq, hqt⟩
        rcases List.mem_cons.mp hq with rfl | hq
        · exact absurd hqt ht
        · exact ⟨q, hq, hqt⟩
      rcases r with ⟨parent_id, content⟩ | _ | e
      · rw [iopubLoop]
        by_cases ht : t > iopub_timeout_duration
        · rw [if_pos ht]; simp
        · rw [if_neg ht]
          by_cases hpid : parent_id = msg_id
          · subst hpid
            simp only [if_pos rfl]
            exact ih _ (hrest ht)
          · simp only [if_neg hpid]
            exact ih _ (hrest ht)
      · rw [iopubLoop]
        by_cases ht : t > iopub_timeout_duration
        · rw [if_pos ht]; simp
        · rw [if_neg ht]
          by_cases hidle : idleSeen
          · subst hidle; simp
          · simp only [Bool.not_eq_true] at hidle
            subst hidle
            rw [if_neg Bool.false_ne_true]
            exact ih _ (hrest ht)
      · rw [iopubLoop]
        by_cases ht : t > iopub_timeout_duration
        · rw [if_pos ht]; simp
        · rw [if_neg ht]; simp

/-- C5, witness: a poll observed at elapsed time 11 exits the loop with the
timeout marker even though a matching message was available and the idle flag
was still false, and a trace reaching past the deadline always has an exit. -/
theorem iopub_overall_timeout_witness :
    iopubLoop "m1" [((11 : ℚ), PollResult.msg "m1" (IOPubContent.status "busy"))] false =
      ([overallTimeoutLine], false, some LoopExit.overallTimeout) ∧
    (iopubLoop "m1" [((1 : ℚ), PollResult.empty), ((11 : ℚ), PollResult.empty)] false).2.2 ≠
      none :=
  ⟨iopub_overall_timeout.1 "m1" 11 (PollResult.msg "m1" (IOPubContent.status "busy")) [] false
      (by decide),
   iopub_overall_timeout.2 "m1" [((1 : ℚ), PollResult.empty), ((11 : ℚ), PollResult.empty)]
      false ⟨((11 : ℚ), PollResult.empty), by decide⟩⟩

lemma status_line_no_newline (st : String) (h : '\n' ∉ st.data) :
    ∀ c ∈ ("Status: " ++ st).data, c ≠ '\n' := by
  intro c hc he
  subst he
  rw [String.data_append] at hc
  rcases List.mem_append.mp hc with h0 | h0
  · exact absurd h0 (by decide)
  · exact h h0

lemma status_line_ne_nil (st : String) : ("Status: " ++ st).data ≠ [] := by
  rw [String.data_append]
  intro hemp
  exact absurd (List.append_eq_nil.mp hemp).1 (by decide)

lemma shellPhase_decomp (msg_id : String) (res : ShellResult) (outputs : List String) :
    ∃ st details,
      shellPhase msg_id res outputs = ("Status: " ++ st) :: (outputs ++ details) ∧
      ((∃ content, res = ShellResult.reply msg_id content ∧ st = content.status ∧
          (content.status = "error" → details = shellErrorDetails content) ∧
          (content.status = "ok" → details = [executionCountLine content]) ∧
          (content.status ≠ "error" → content.status ≠ "ok" → details = [])) ∨
       (∃ parent_id content, res = ShellResult.reply parent_id content ∧ parent_id ≠ msg_id ∧
          st = "error_shell_reply_mismatch" ∧
          details = ["Shell reply (msg_id " ++ parent_id ++
            ") was not for the current command (msg_id " ++ msg_id ++ ")."]) ∨
       (res = ShellResult.empty ∧ st = "error_shell_reply_timeout" ∧
          details = ["Timeout waiting for shell reply from IPython kernel."]) ∨
       (∃ e, res = ShellResult.exc e ∧ st = "error_shell_reply_exception" ∧
          details = ["Exception while getting shell reply: " ++ e])) := by
  have hm : ("Status: error_shell_reply_mismatch" : String) =
      "Status: " ++ "error_shell_reply_mismatch" := by decide
  have hti : ("Status: error_shell_reply_timeout" : String) =
      "Status: " ++ "error_shell_reply_timeout" := by decide
  have hx : ("Status: error_shell_reply_exception" : String) =
      "Status: " ++ "error_shell_reply_exception" := by decide
  rcases res with ⟨parent_id, content⟩ | _ | e
  · by_cases hpid : parent_id = msg_id
    · subst hpid
      by_cases herr : content.status = "error"
      · exact ⟨content.status, shellErrorDetails content, by simp [shellPhase, herr],
          Or.inl ⟨content, rfl, rfl, fun _ => rfl,
            fun hok => absurd (herr.symm.trans hok) (by decide),
            fun hne _ => absurd herr hne⟩⟩
      · by_cases hok : content.status = "ok"
        · exact ⟨content.status, [executionCountLine content], by simp [shellPhase, herr, hok],
            Or.inl ⟨content, rfl, rfl, fun h => absurd h herr, fun _ => rfl,
              fun _ h => absurd hok h⟩⟩
        · exact ⟨content.status, [], by simp [shellPhase, herr, hok],
            Or.inl ⟨content, rfl, rfl, fun h => absurd h herr, fun h => absurd h hok,
              fun _ _ => rfl⟩⟩
    · exact ⟨"error_shell_reply_mismatch",
        ["Shell reply (msg_id " ++ parent_id ++ ") was not for the current command (msg_id " ++
          msg_id ++ ")."],
        by rw [shellPhase, if_neg hpid, hm]; simp,
        Or.inr (Or.inl ⟨parent_id, content, rfl, hpid, rfl, rfl⟩)⟩
  · exact ⟨"error_shell_reply_timeout",
      ["Timeout waiting for shell reply from IPython kernel."],
      by rw [shellPhase, hti]; simp,
      Or.inr (Or.inr (Or.inl ⟨rfl, rfl, rfl⟩))⟩
  · exact ⟨"error_shell_reply_exception",
      ["Exception while getting shell reply: " ++ e],
      by rw [shellPhase, hx]; simp,
      Or.inr (Or.inr (Or.inr ⟨e, rfl, rfl, rfl⟩))⟩

/-- C6: the shell-reply poll has exactly four dispositions.  The produced list
always prepends one `Status: `-line to the notification-derived outputs and
appends reply-derived detail lines: a matching reply contributes its own
status (with error name/value/traceback lines when the status is `error`, an
execution-count line when it is `ok`); a non-matching reply contributes
`error_shell_reply_mismatch` plus a mismatch note; an empty poll contributes
`error_shell_reply_timeout` plus a timeout note; any other fault contributes
`error_shell_reply_exception` plus the fault description. -/
theorem shell_reply_dispositions (msg_id : String) (res : ShellResult)
    (outputs : List String) :
    ∃ st details,
      shellPhase msg_id res outputs = ("Status: " ++ st) :: (outputs ++ details) ∧
      ((∃ content, res = ShellResult.reply msg_id content ∧ st = content.status ∧
          (content.status = "error" → details = shellErrorDetails content) ∧
          (content.status = "ok" → details = [executionCountLine content]) ∧
          (content.status ≠ "error" → content.status ≠ "ok" → details = [])) ∨
       (∃ parent_id content, res = ShellResult.reply parent_id content ∧ parent_id ≠ msg_id ∧
          st = "error_shell_reply_mismatch" ∧
          details = ["Shell reply (msg_id " ++ parent_id ++
            ") was not for the current command (msg_id " ++ msg_id ++ ")."]) ∨
       (res = ShellResult.empty ∧ st = "error_shell_reply_timeout" ∧
          details = ["Timeout waiting for shell reply from IPython kernel."]) ∨
       (∃ e, res = ShellResult.exc e ∧ st = "error_shell_reply_exception" ∧
          details = ["Exception while getting shell reply: " ++ e])) :=
  shellPhase_decomp msg_id res outputs

/-- C6, witness: instantiation at an empty shell poll. -/
theorem shell_reply_dispositions_witness :
    ∃ st details,
      shellPhase "m1" ShellResult.empty ["  Kernel Status: idle"] =
        ("Status: " ++ st) :: (["  Kernel Status: idle"] ++ details) ∧
      ((∃ content, ShellResult.empty = ShellResult.reply "m1" content ∧ st = content.status ∧
          (content.status = "error" → details = shellErrorDetails content) ∧
          (content.status = "ok" → details = [executionCountLine content]) ∧
          (content.status ≠ "error" → content.status ≠ "ok" → details = [])) ∨
       (∃ parent_id content, ShellResult.empty = ShellResult.reply parent_id content ∧
          parent_id ≠ "m1" ∧ st = "error_shell_reply_mismatch" ∧
          details = ["Shell reply (msg_id " ++ parent_id ++
            ") was not for the current command (msg_id " ++ "m1" ++ ")."]) ∨
       (ShellResult.empty = ShellResult.empty ∧ st = "error_shell_reply_timeout" ∧
          details = ["Timeout waiting for shell reply from IPython kernel."]) ∨
       (∃ e, ShellResult.empty = ShellResult.exc e ∧ st = "error_shell_reply_exception" ∧
          details = ["Exception while getting shell reply: " ++ e])) :=
  shell_reply_dispositions "m1" ShellResult.empty ["  Kernel Status: idle"]

/-- C7: on the normal execution path (kernel alive and channels usable), the
returned text is the newline-join, with empty lines dropped, of the status
line first, then the notification-derived lines in arrival order, then the
reply-derived detail lines. -/
theorem send_command_transcript_order (env : KernelEnv)
    (ha : env.kernel_alive = true)
    (hc : env.channels_running = true ∨ env.ready_ok = true) :
    ∃ st details,
      send_command env =
        joinWithNewline ((("Status: " ++ st) ::
          ((iopubLoop env.msg_id env.iopubTrace false).1 ++ details)).filter
            (fun s => s ≠ "")) := by
  obtain ⟨st, details, heq, -⟩ := shellPhase_decomp env.msg_id env.shellResult
    (iopubLoop env.msg_id env.iopubTrace false).1
  refine ⟨st, details, ?_⟩
  rw [send_command, if_neg (not_not_intro ha), if_neg (fun hboth => ?_), heq, joinOutputs]
  rcases hc with h | h
  · exact hboth.1 h
  · exact hboth.2 h

/-- C7, witness: instantiation at an alive kernel with an empty trace and an
empty shell poll. -/
theorem send_command_transcript_order_witness :
    ∃ st details,
      send_command { kernel_alive := true } =
        joinWithNewline ((("Status: " ++ st) ::
          ((iopubLoop (KernelEnv.msg_id { kernel_alive := true })
              (KernelEnv.iopubTrace { kernel_alive := true }) false).1 ++ details)).filter
            (fun s => s ≠ "")) :=
  send_command_transcript_order { kernel_alive := true } rfl (Or.inl rfl)

/-- Environment used to exercise the path where the matching reply carries a
status other than `ok` or `error`. -/
def envOtherStatus : KernelEnv :=
  { kernel_alive := true
    msg_id := "m2"
    iopubTrace := [((1 : ℚ), .msg "m2" (.status "busy"))]
    shellResult := .reply "m2" { status := "aborted" } }

/-- C9: a matching reply whose status is neither `ok` nor `error` contributes
only the status line: the shell phase prepends `Status: <that status>` and
appends nothing, and the first line of the returned text is that status
line. -/
theorem shell_reply_other_status (env : KernelEnv) (content : ShellReplyContent)
    (ha : env.kernel_alive = true)
    (hc : env.channels_running = true ∨ env.ready_ok = true)
    (hres : env.shellResult = ShellResult.reply env.msg_id content)
    (hok : content.status ≠ "ok") (herr : content.status ≠ "error")
    (hnl : '\n' ∉ content.status.data) :
    shellPhase env.msg_id env.shellResult (iopubLoop env.msg_id env.iopubTrace false).1 =
      ("Status: " ++ content.status) :: (iopubLoop env.msg_id env.iopubTrace false).1 ∧
    firstLine (send_command env) = "Status: " ++ content.status := by
  have hsp : shellPhase env.msg_id env.shellResult
      (iopubLoop env.msg_id env.iopubTrace false).1 =
      ("Status: " ++ content.status) :: (iopubLoop env.msg_id env.iopubTrace false).1 := by
    rw [hres, shellPhase, if_pos rfl, if_neg herr, if_neg hok]
  refine ⟨hsp, ?_⟩
  rw [send_command, if_neg (not_not_intro ha), if_neg (fun hboth => ?_), hsp,
    firstLine_joinOutputs_cons _ _ (status_line_no_newline _ hnl) (status_line_ne_nil _)]
  rcases hc with h | h
  · exact hboth.1 h
  · exact hboth.2 h

/-- C9, witness: an `aborted` reply matching the request contributes only
`Status: aborted`. -/
theorem shell_reply_other_status_witness :
    shellPhase envOtherStatus.msg_id envOtherStatus.shellResult
      (iopubLoop envOtherStatus.msg_id envOtherStatus.iopubTrace false).1 =
      ("Status: " ++ "aborted") ::
        (iopubLoop envOtherStatus.msg_id envOtherStatus.iopubTrace false).1 ∧
    firstLine (send_command envOtherStatus) = "Status: " ++ "aborted" :=
  shell_reply_other_status envOtherStatus { status := "aborted" } rfl (Or.inl rfl) rfl
    (by decide) (by decide) (by decide)

/-- Protocol well-formedness of a shell-reply outcome: a reply's status string
contains no newline (true of every status the message protocol defines:
`ok`, `error`, `aborted`). -/
def ShellResult.statusNoNewline : ShellResult → Prop
  | .reply _ content => '\n' ∉ content.status.data
  | .empty => True
  | .exc _ => True

instance : (res : ShellResult) → Decidable res.statusNoNewline
  | .reply _ content => inferInstanceAs (Decidable ('\n' ∉ content.status.data))
  | .empty => inferInstanceAs (Decidable True)
  | .exc _ => inferInstanceAs (Decidable True)

/-- Environment with the worker found dead pre-submission and a successful
restart: `send_command` returns the restart notice, whose first line starts
with `Error:`, not with `Status:`. -/
def envKernelDead : KernelEnv := { kernel_alive := false }

/-- Environment with an alive kernel whose matching shell reply carries the
status `aborted`. -/
def envAbortedReply : KernelEnv :=
  { kernel_alive := true
    msg_id := "m1"
    shellResult := .reply "m1" { status := "aborted" } }

/-- C1, counterexample: the claim fails on the code on two of the paths it
names.  With the worker found dead pre-submission and restarted, the returned
text's first line is the `Error:`-prefixed restart notice; with a matching
reply of status `aborted`, the first line is `Status: aborted`.  Neither is
`Status: ok` nor starts with `Status: error`. -/
theorem send_command_first_line_cex :
    ¬ (firstLine (send_command envKernelDead) = "Status: ok" ∨
       pyStartsWith (firstLine (send_command envKernelDead)) "Status: error") ∧
    ¬ (firstLine (send_command envAbortedReply) = "Status: ok" ∨
       pyStartsWith (firstLine (send_command envAbortedReply)) "Status: error") := by
  decide

/-- C1 (amended): for every environment whose shell reply is protocol
well-formed, the first line of the text returned by `send_command` is exactly
`Status: ok`, or starts with `Status: error`, or is `Status: <s>` where `s`
is the status carried by the matching shell reply, or — on the
dead-worker-restart and channel-readiness-failure paths — starts with
`Error:`. -/
theorem send_command_first_line_status (env : KernelEnv)
    (hwf : env.shellResult.statusNoNewline) :
    pyStartsWith (firstLine (send_command env)) "Error:" ∨
    firstLine (send_command env) = "Status: ok" ∨
    pyStartsWith (firstLine (send_command env)) "Status: error" ∨
    (∃ content, env.shellResult = ShellResult.reply env.msg_id content ∧
      firstLine (send_command env) = "Status: " ++ content.status) := by
  by_cases ha : env.kernel_alive
  · rw [send_command, if_neg (not_not_intro ha)]
    by_cases hch : ¬ env.channels_running ∧ ¬ env.ready_ok
    · rw [if_pos hch]
      exact Or.inl (by decide)
    · rw [if_neg hch]
      obtain ⟨st, details, heq, hcases⟩ := shellPhase_decomp env.msg_id env.shellResult
        (iopubLoop env.msg_id env.iopubTrace false).1
      rw [heq]
      rcases hcases with ⟨content, hres, hst, -, -, -⟩ | ⟨parent_id, content, hres, hpid, hst, -⟩ |
        ⟨hres, hst, -⟩ | ⟨e, hres, hst, -⟩
      · subst hst
        have hnl : '\n' ∉ content.status.data := by
          rw [hres] at hwf
          exact hwf
        refine Or.inr (Or.inr (Or.inr ⟨content, hres, ?_⟩))
        exact firstLine_joinOutputs_cons _ _ (status_line_no_newline _ hnl)
          (status_line_ne_nil _)
      · subst hst
        refine Or.inr (Or.inr (Or.inl ?_))
        rw [firstLine_joinOutputs_cons _ _ (status_line_no_newline _ (by decide))
          (status_line_ne_nil _)]
        decide
      · subst hst
        refine Or.inr (Or.inr (Or.inl ?_))
        rw [firstLine_joinOutputs_cons _ _ (status_line_no_newline _ (by decide))
          (status_line_ne_nil _)]
        decide
      · subst hst
        refine Or.inr (Or.inr (Or.inl ?_))
        rw [firstLine_joinOutputs_cons _ _ (status_line_no_newline _ (by decide))
          (status_line_ne_nil _)]
        decide
  · rw [send_command, if_pos ha]
    by_cases hr : env.restart_ok
    · rw [if_pos hr]
      exact Or.inl (by decide)
    · rw [if_neg hr]
      refine Or.inl ?_
      rw [firstLine_append _ _ (by decide)]
      show ("Error:" : String).data <+:
        ("Error: IPython kernel not available and failed to restart: " ++
          firstLine env.restart_error).data
      rw [String.data_append]
      exact List.IsPrefix.trans (by decide) (List.prefix_append _ _)

/-- C1, witness: the amended statement at the `aborted`-reply environment. -/
theorem send_command_first_line_status_witness :
    pyStartsWith (firstLine (send_command envAbortedReply)) "Error:" ∨
    firstLine (send_command envAbortedReply) = "Status: ok" ∨
    pyStartsWith (firstLine (send_command envAbortedReply)) "Status: error" ∨
    (∃ content, envAbortedReply.shellResult =
        ShellResult.reply envAbortedReply.msg_id content ∧
      firstLine (send_command envAbortedReply) = "Status: " ++ content.status) :=
  send_command_first_line_status envAbortedReply (by decide)
